import Mathlib

/-!
Shallow embedding of the SmartFeeder firmware (src/src/main.cpp) and proofs of
the specification's claims about it.

The firmware is single-threaded Arduino code.  We embed the observable side
effects of each routine as explicit data: `dispenseFood` produces the list of
hardware events it performs (enable-pin writes, delays, stepper commands),
`getWeight` is a pure function of the amplifier-ready flag and the raw sample
stream, and the main `loop`'s periodic status sampling is a fold over the
sequence of `millis()` values observed at each tick.  Serial debug printing is
pure logging with no effect on control flow or hardware state and is omitted
from the event traces.
-/

namespace SmartFeeder

/-- Digital pin level, as used by `digitalRead`/`digitalWrite` (main.cpp).
`LOW` on the IR sensor pin means an obstruction is present (asserted-low);
`LOW` on the A4988 ENABLE pin means the motor driver is enabled (active-low:
setup() writes `HIGH` to "Disable motor initially", line 94). -/
inductive PinLevel
  | LOW
  | HIGH
deriving DecidableEq, Repr

/-- `#define DISPENSE_STEPS 400` (main.cpp line 33): the fixed relative move
issued per dispense cycle. -/
def DISPENSE_STEPS : ℤ := 400

/-- `const unsigned long weightDisplayInterval = 5000;` (main.cpp line 47).
The loop body's status-sampling guard (line 165) uses the literal `5000`,
which equals this configured interval. -/
def weightDisplayInterval : ℕ := 5000

/-- 2^32: the modulus of `unsigned long` arithmetic on the ESP32, which is the
type of `millis()` and of the subtraction `now - lastStatus` in `loop`. -/
def U32 : ℕ := 4294967296

/-- One observable hardware side effect of `dispenseFood` (main.cpp 369-400):
a write to the A4988 ENABLE pin, a `delay(ms)`, a relative stepper move
command (`stepper.move(steps)`), or the synchronous completion loop
`while (stepper.run()) { delay(1); }` that drives the commanded move to its
end before returning. -/
inductive Event
  | enableWrite (level : PinLevel)
  | delayMs (ms : ℕ)
  | moveRel (steps : ℤ)
  | runToCompletion
deriving DecidableEq, Repr

/-- The spec's dispense outcome type (§3): which of the two return paths a
dispense call takes.  The C++ `dispenseFood` is `void`; this records its
control flow: the early `return` in the obstruction branch (line 378) versus
falling through to the end of the function after a completed move. -/
inductive DispenseOutcome
  | Completed
  | BlockedByObstacle
deriving DecidableEq, Repr

/-- `dispenseFood()` (main.cpp 369-400), as the trace of hardware events it
performs, given the value `ir` read from the IR sensor pin at entry
(`int irValue = digitalRead(IR_SENSOR_PIN);`).  If `irValue == LOW` the
function returns at once having touched no hardware; otherwise it enables the
driver (active-low), waits 10 ms, commands a relative move of
`DISPENSE_STEPS`, runs the stepper to completion, disables the driver and
waits 1000 ms. -/
def dispenseFood (ir : PinLevel) : List Event :=
  if ir = PinLevel.LOW then
    []
  else
    [Event.enableWrite PinLevel.LOW,
     Event.delayMs 10,
     Event.moveRel DISPENSE_STEPS,
     Event.runToCompletion,
     Event.enableWrite PinLevel.HIGH,
     Event.delayMs 1000]

/-- Which return path `dispenseFood` takes for a given IR reading: the
blocked early return (line 376-379) or the completed fall-through. -/
def dispensePath (ir : PinLevel) : DispenseOutcome :=
  if ir = PinLevel.LOW then DispenseOutcome.BlockedByObstacle
  else DispenseOutcome.Completed

/-- Whether a trace ever asserts the motor-enable line (writes the active-low
ENABLE pin to `LOW`). -/
def assertsEnable (tr : List Event) : Bool :=
  tr.any (· = Event.enableWrite PinLevel.LOW)

/-- Whether a trace ever issues a stepper move command. -/
def issuesMove (tr : List Event) : Bool :=
  tr.any fun e =>
    match e with
    | Event.moveRel _ => true
    | _ => false

/-- The sequence of levels written to the ENABLE pin during a trace, in
order. -/
def enableWrites (tr : List Event) : List PinLevel :=
  tr.filterMap fun e =>
    match e with
    | Event.enableWrite l => some l
    | _ => none

/-- The level of the ENABLE pin after a trace runs, starting from `init`.
Only `enableWrite` events change it. -/
def enableAfter (init : PinLevel) (tr : List Event) : PinLevel :=
  tr.foldl (fun s e =>
    match e with
    | Event.enableWrite l => l
    | _ => s) init

/-- The stepper's outstanding distance-to-go after a trace runs:
`stepper.move(n)` adds `n` to the pending relative target, and the
`while (stepper.run())` completion loop drives it to zero. -/
def stepsPending (tr : List Event) : ℤ :=
  tr.foldl (fun d e =>
    match e with
    | Event.moveRel n => d + n
    | Event.runToCompletion => 0
    | _ => d) 0

/-- `getWeight()` (main.cpp 402-412) as a function of the amplifier-ready
flag (`scale.is_ready()`) and the raw sample stream the HX711 would deliver.
`scale.get_units(10)` in the HX711 library returns the average of 10 raw
samples minus the tare offset, divided by the calibration factor set by
`set_scale` — exactly the spec's "average of a bounded number of raw samples
scaled by a calibration factor" (§4.2).  A negative reading is clamped to
zero; a not-ready amplifier yields the zero sentinel. -/
def getWeight (ready : Bool) (raw : ℕ → ℚ) (offset calib : ℚ) : ℚ :=
  if ready then
    let reading := (((List.range 10).map raw).sum / 10 - offset) / calib
    if reading < 0 then 0 else reading
  else 0

/-- `float calibration_factor = -7050.0;` (main.cpp line 36). -/
def calibration_factor : ℚ := -7050

/-- The hardware environment a request handler sees: the IR pin level that
`digitalRead` would return, and the load-cell amplifier state consumed by
`getWeight`. -/
structure Env where
  ir : PinLevel
  scaleReady : Bool
  raw : ℕ → ℚ
  offset : ℚ
  calib : ℚ

/-- An HTTP response as produced by `server.send(code, contentType, body)`. -/
structure HttpResponse where
  code : ℕ
  contentType : String
  body : String
deriving DecidableEq, Repr

/-- Arduino's `String(weight, 2)`: the value rendered in decimal with two
fraction digits, rounding to the nearest hundredth (half away from zero on
the non-negative values that reach it here). -/
def fmt2 (q : ℚ) : String :=
  let c : ℤ := ⌊q * 100 + 1 / 2⌋
  let n : ℕ := c.natAbs
  (if c < 0 then "-" else "") ++ toString (n / 100) ++ "." ++
    (if n % 100 < 10 then "0" else "") ++ toString (n % 100)

/-- One step the `handleDispense` handler performs, in order: a motor-side
hardware event (from `dispenseFood`), the `getWeight()` call, or the final
`server.send`. -/
inductive Action
  | motor (ev : Event)
  | readWeight
  | send (r : HttpResponse)
deriving DecidableEq, Repr

/-- `handleDispense()` (main.cpp 351-358): calls `dispenseFood()`, then reads
the weight, then unconditionally sends
`200 "Food dispensed! Current weight: <w> g"` — the same response whether the
dispense ran or was aborted by the obstruction check inside `dispenseFood`.
Returns the response together with the ordered list of steps performed. -/
def handleDispense (e : Env) : HttpResponse × List Action :=
  let w := getWeight e.scaleReady e.raw e.offset e.calib
  let r : HttpResponse :=
    ⟨200, "text/plain", "Food dispensed! Current weight: " ++ fmt2 w ++ " g"⟩
  (r, (dispenseFood e.ir).map Action.motor ++ [Action.readWeight, Action.send r])

/-- A call one of the web-server handlers makes into the core logic. -/
inductive Call
  | dispense
  | weightRead
  | irRead
  | sendResp
deriving DecidableEq, Repr

/-- Calls made by `handleRoot()` (main.cpp 305-349): reads the weight and the
IR pin to render the page, never dispenses. -/
def handleRootCalls : List Call :=
  [Call.weightRead, Call.irRead, Call.sendResp]

/-- Calls made by `handleDispense()` (main.cpp 351-358): exactly one
`dispenseFood()` call, then a weight read, then the response. -/
def handleDispenseCalls : List Call :=
  [Call.dispense, Call.weightRead, Call.sendResp]

/-- Calls made by `handleWeight()` (main.cpp 360-363). -/
def handleWeightCalls : List Call :=
  [Call.weightRead, Call.sendResp]

/-- Calls made by `handleNotFound()` (main.cpp 365-367): only the 404
response. -/
def handleNotFoundCalls : List Call :=
  [Call.sendResp]

/-- The web server's routing table as registered in `setup()` (main.cpp
125-128): `"/" ↦ handleRoot`, `"/dispense" ↦ handleDispense`,
`"/weight" ↦ handleWeight`, everything else `↦ handleNotFound`.  Yields the
calls the dispatched handler makes. -/
def route (path : String) : List Call :=
  if path = "/" then handleRootCalls
  else if path = "/dispense" then handleDispenseCalls
  else if path = "/weight" then handleWeightCalls
  else handleNotFoundCalls

/-- How many `dispenseFood()` invocations a handler's call list contains. -/
def dispenseCallCount (cs : List Call) : ℕ :=
  cs.countP (· = Call.dispense)

/-- The periodic status sampling in `loop()` (main.cpp 159-183).  Each tick
reads `now = millis()`; if `now - lastStatus >= 5000` (computed in
`unsigned long`, i.e. modulo 2^32) the tick samples the weight and IR status
and sets `lastStatus = now`.  Given the initial `lastStatus` and the sequence
of `millis()` values at successive ticks, this returns the times at which a
sample fires.  The subtraction `(now - last) % U32` equals the firmware's
32-bit `now - lastStatus` whenever `last ≤ now` (monotone clock). -/
def loopSamples : ℕ → List ℕ → List ℕ
  | _, [] => []
  | last, now :: rest =>
    if 5000 ≤ (now - last) % U32 then
      now :: loopSamples now rest
    else
      loopSamples last rest

/-! ## Helper lemmas -/

/-- If the 32-bit guard `now - lastStatus >= 5000` passes on a monotone
clock, then at least 5000 ms of true time have elapsed. -/
theorem loopSamples_fires_ge {last now : ℕ} (h1 : last ≤ now)
    (h2 : 5000 ≤ (now - last) % U32) : last + 5000 ≤ now := by
  rcases le_or_lt (last + 5000) now with h | h
  · exact h
  · have hlt : (now - last) % U32 = now - last :=
      Nat.mod_eq_of_lt (by unfold U32; omega)
    omega

/-- A `≤`-chain can be re-rooted at any smaller head value. -/
theorem chain_le_of_le {a b : ℕ} {l : List ℕ}
    (h : List.Chain (· ≤ ·) a l) (hba : b ≤ a) : List.Chain (· ≤ ·) b l := by
  cases h with
  | nil => exact List.Chain.nil
  | cons hab h' => exact List.Chain.cons (le_trans hba hab) h'

/-- Every sample the loop emits lies at least 5000 ms after the
`lastStatus` value it started from. -/
theorem loopSamples_lower_bound (ticks : List ℕ) :
    ∀ last, List.Chain (· ≤ ·) last ticks →
      ∀ s ∈ loopSamples last ticks, last + 5000 ≤ s := by
  induction ticks with
  | nil =>
    intro last _ s hs
    simp [loopSamples] at hs
  | cons now rest ih =>
    intro last hch s hs
    cases hch with
    | cons hln hch' =>
      unfold loopSamples at hs
      split_ifs at hs with hf
      · rcases List.mem_cons.mp hs with rfl | hs'
        · exact loopSamples_fires_ge hln hf
        · have hrec := ih now hch' s hs'
          have hnow := loopSamples_fires_ge hln hf
          omega
      · exact ih last (chain_le_of_le hch' hln) s hs

/-- Consecutive emitted samples are at least 5000 ms apart, for any starting
`lastStatus` below the whole (monotone) tick sequence. -/
theorem loopSamples_chain_aux (ticks : List ℕ) :
    ∀ last, List.Chain (· ≤ ·) last ticks →
      List.Chain' (fun a b => a + 5000 ≤ b) (loopSamples last ticks) := by
  induction ticks with
  | nil =>
    intro last _
    simp [loopSamples]
  | cons now rest ih =>
    intro last hch
    cases hch with
    | cons hln hch' =>
      unfold loopSamples
      split_ifs with hf
      · rw [List.chain'_cons']
        refine ⟨fun y hy => ?_, ih now hch'⟩
        exact loopSamples_lower_bound rest now hch' y (List.mem_of_mem_head? hy)
      · exact ih last (chain_le_of_le hch' hln)

/-! ## Claims -/

/-- C1: a dispense call made while the obstacle sensor reads Blocked
(IR pin `LOW`) returns immediately through the blocked path, performs no
hardware action at all, never asserts the motor-enable line and issues no
motor move command. -/
theorem dispense_blocked_no_motion :
    dispenseFood PinLevel.LOW = [] ∧
    dispensePath PinLevel.LOW = DispenseOutcome.BlockedByObstacle ∧
    assertsEnable (dispenseFood PinLevel.LOW) = false ∧
    issuesMove (dispenseFood PinLevel.LOW) = false := by
  refine ⟨rfl, rfl, rfl, rfl⟩

/-- C2: starting from the disabled state (`HIGH`, as `setup()` leaves it),
the enable line is back at disabled when `dispenseFood` returns, on both exit
paths; and a completed (non-blocked) call writes exactly
assert (`LOW`) then de-assert (`HIGH`) to the enable line, nothing else. -/
theorem dispense_enable_line_invariant (ir : PinLevel) :
    enableAfter PinLevel.HIGH (dispenseFood ir) = PinLevel.HIGH ∧
    (ir = PinLevel.HIGH →
      enableWrites (dispenseFood ir) = [PinLevel.LOW, PinLevel.HIGH]) := by
  cases ir with
  | LOW => exact ⟨rfl, fun h => by cases h⟩
  | HIGH => exact ⟨rfl, fun _ => rfl⟩

/-- Witness for C2 at the non-blocked input `HIGH`. -/
theorem dispense_enable_line_invariant_witness :
    PinLevel.HIGH = PinLevel.HIGH ∧
    (enableAfter PinLevel.HIGH (dispenseFood PinLevel.HIGH) = PinLevel.HIGH ∧
     enableWrites (dispenseFood PinLevel.HIGH) = [PinLevel.LOW, PinLevel.HIGH]) :=
  ⟨rfl, (dispense_enable_line_invariant PinLevel.HIGH).1,
    (dispense_enable_line_invariant PinLevel.HIGH).2 rfl⟩

/-- C3 (counterexample): at a concrete environment the HTTP response to a
blocked dispense equals the response to a completed dispense bit for bit,
even though the two calls take different outcome paths — so the response does
not distinguish the two outcomes and the caller receives no outcome
information. -/
theorem dispense_response_blocked_eq_clear :
    (handleDispense ⟨PinLevel.LOW, true, fun _ => 0, 0, 1⟩).1 =
      (handleDispense ⟨PinLevel.HIGH, true, fun _ => 0, 0, 1⟩).1 ∧
    dispensePath PinLevel.LOW = DispenseOutcome.BlockedByObstacle ∧
    dispensePath PinLevel.HIGH = DispenseOutcome.Completed :=
  ⟨rfl, rfl, rfl⟩

/-- C3 (amended): the transport response does not distinguish the two
dispense outcomes: in any fixed sensor environment, a blocked trigger and a
clear trigger produce the identical response, always with success status
200; `dispenseFood` itself returns no outcome value to its caller. -/
theorem dispense_response_uniform (ready : Bool) (raw : ℕ → ℚ) (o c : ℚ) :
    (handleDispense ⟨PinLevel.LOW, ready, raw, o, c⟩).1 =
      (handleDispense ⟨PinLevel.HIGH, ready, raw, o, c⟩).1 ∧
    (handleDispense ⟨PinLevel.LOW, ready, raw, o, c⟩).1.code = 200 :=
  ⟨rfl, rfl⟩

/-- C4: a dispense call that finds the sensor Clear performs exactly, in
order: assert enable, 10 ms settle delay, relative move of the constant
`DISPENSE_STEPS = 400`, synchronous run to completion, de-assert enable,
1000 ms post-move settle delay; and no stepping remains pending at return. -/
theorem dispense_clear_event_order :
    dispenseFood PinLevel.HIGH =
      [Event.enableWrite PinLevel.LOW,
       Event.delayMs 10,
       Event.moveRel DISPENSE_STEPS,
       Event.runToCompletion,
       Event.enableWrite PinLevel.HIGH,
       Event.delayMs 1000] ∧
    DISPENSE_STEPS = 400 ∧
    stepsPending (dispenseFood PinLevel.HIGH) = 0 := by
  refine ⟨rfl, rfl, ?_⟩
  decide

/-- C5: over any monotone sequence of `millis()` readings, the status
samples the loop emits are pairwise separated by at least the configured
interval (`weightDisplayInterval = 5000` ms, the value the loop's guard
tests): the sampling fires at most once per interval no matter how many
ticks fall inside it. -/
theorem loop_sample_interval (ticks : List ℕ)
    (h : List.Chain (· ≤ ·) 0 ticks) :
    List.Chain' (fun a b => a + weightDisplayInterval ≤ b)
      (loopSamples 0 ticks) :=
  loopSamples_chain_aux ticks 0 h

/-- Witness for C5 on the tick sequence 10, 5000, 5010, 10020 ms. -/
theorem loop_sample_interval_witness :
    List.Chain (· ≤ ·) 0 [10, 5000, 5010, 10020] ∧
    List.Chain' (fun a b => a + weightDisplayInterval ≤ b)
      (loopSamples 0 [10, 5000, 5010, 10020]) :=
  ⟨by simp [List.chain_cons],
   loop_sample_interval [10, 5000, 5010, 10020] (by simp [List.chain_cons])⟩

/-- C6: whenever the amplifier reports not-ready, `getWeight` returns the
zero sentinel, whatever the raw sample stream, tare offset and calibration
factor are, and it returns a plain value — no error is propagated. -/
theorem getWeight_notReady_zero (raw : ℕ → ℚ) (offset calib : ℚ) :
    getWeight false raw offset calib = 0 :=
  rfl

/-- C7: `getWeight` never returns a negative value, for every readiness
state and every raw sample stream — including streams in which every sample
is negative. -/
theorem getWeight_nonneg (ready : Bool) (raw : ℕ → ℚ) (offset calib : ℚ) :
    0 ≤ getWeight ready raw offset calib := by
  simp only [getWeight]
  split_ifs with h1 h2
  · exact le_refl 0
  · linarith
  · exact le_refl 0

/-- C8: with the amplifier ready, `getWeight` returns the average of the
fixed 10 raw samples, tared and scaled by the calibration factor, clamped at
zero; in particular a calibrated average of 150.0 g yields exactly 150. -/
theorem getWeight_ready_average (raw : ℕ → ℚ) (offset calib : ℚ)
    (h : (((List.range 10).map raw).sum / 10 - offset) / calib = 150) :
    getWeight true raw offset calib = 150 ∧
    ∀ (g : ℕ → ℚ) (o c : ℚ),
      getWeight true g o c =
        max 0 ((((List.range 10).map g).sum / 10 - o) / c) := by
  have hmax : ∀ (g : ℕ → ℚ) (o c : ℚ),
      getWeight true g o c =
        max 0 ((((List.range 10).map g).sum / 10 - o) / c) := by
    intro g o c
    have hdef : getWeight true g o c =
        if (((List.range 10).map g).sum / 10 - o) / c < 0 then 0
        else (((List.range 10).map g).sum / 10 - o) / c := rfl
    rw [hdef]
    split_ifs with hlt
    · exact (max_eq_left hlt.le).symm
    · exact (max_eq_right (not_lt.mp hlt)).symm
  refine ⟨?_, hmax⟩
  rw [hmax raw offset calib, h]
  norm_num

/-- Witness for C8: ten raw samples of 150 with zero tare and unit
calibration average to 150 and read back as 150. -/
theorem getWeight_ready_average_witness :
    (((List.range 10).map (fun _ => (150 : ℚ))).sum / 10 - 0) / 1 = 150 ∧
    (getWeight true (fun _ => (150 : ℚ)) 0 1 = 150 ∧
     ∀ (g : ℕ → ℚ) (o c : ℚ),
       getWeight true g o c =
         max 0 ((((List.range 10).map g).sum / 10 - o) / c)) :=
  ⟨by norm_num [List.range_succ],
   getWeight_ready_average (fun _ => (150 : ℚ)) 0 1
     (by norm_num [List.range_succ])⟩

/-- C9: of all routes the server dispatches, exactly the `/dispense` route
makes exactly one `dispenseFood()` invocation; every other request path
(including `/`, `/weight` and the not-found handler) makes zero. -/
theorem route_dispense_count (path : String) :
    dispenseCallCount (route path) = if path = "/dispense" then 1 else 0 := by
  by_cases h : path = "/dispense"
  · subst h
    decide
  · rw [if_neg h]
    unfold route
    split_ifs with h1 h2
    · decide
    · decide
    · decide

/-- C10: every request to `/dispense` is answered with status 200 and the
body `"Food dispensed! Current weight: <w> g"`, where `<w>` is the weight
read by the `getWeight()` call the handler makes after the dispense attempt
— for every environment, so also when the obstacle interlock aborted the
dispense without moving the motor. -/
theorem handleDispense_always_success (e : Env) :
    (handleDispense e).1.code = 200 ∧
    (handleDispense e).1.body =
      "Food dispensed! Current weight: " ++
        fmt2 (getWeight e.scaleReady e.raw e.offset e.calib) ++ " g" ∧
    (handleDispense e).2 =
      (dispenseFood e.ir).map Action.motor ++
        [Action.readWeight, Action.send (handleDispense e).1] :=
  ⟨rfl, rfl, rfl⟩

end SmartFeeder
